import Mathlib

/-!
# Formal model of the contacts-management API (`main.py`)

Shallow embedding of `src/goit-pyweb-hw-12/main.py`: the data model
(`User`, `Contact`), the route table built by the `@app.…` and
`@router.…` decorators, and the request handlers, each translated to an
executable Lean function.  Database sessions become an explicit `Db`
value; SQLAlchemy queries become list operations; raising an
`HTTPException` becomes returning `Except.error`.

Parts of the repository referenced from `main.py` but absent from the
sources (the `crud`, `auth`, `db`, `models`, `schemas` modules and the
passlib bcrypt context) are modelled from the specification; every such
definition carries a doc comment starting `Modelled from the spec:`.
-/

namespace ContactsApi

/-- The `users` table row: `models.User` (spec §3: id unique, username
unique, hashed password). -/
structure User where
  id : Nat
  username : String
  password : String
  deriving Repr, DecidableEq

/-- The `contacts` table row: `models.Contact` (spec §3 / §6).  Birthdays
are modelled as a day number (days since an arbitrary epoch). -/
structure Contact where
  id : Nat
  first_name : String
  last_name : String
  email : String
  birthday : Nat
  user_id : Nat
  deriving Repr, DecidableEq

/-- The relational store reached through a SQLAlchemy `Session`. -/
structure Db where
  users : List User
  contacts : List Contact
  deriving Repr, DecidableEq

/-- A raised `fastapi.HTTPException`: status code, detail message, and
whether the `WWW-Authenticate: Bearer` header is attached. -/
structure HTTPException where
  status_code : Nat
  detail : String
  bearerHeader : Bool
  deriving Repr, DecidableEq

/-! ## Routing

`main.py` registers routes with `@app.get`, `@app.post`, `@app.delete`
on the `FastAPI` object `app` (lines 26–86) and with `@router.post` on
the `APIRouter` object `router` (lines 106–144).  FastAPI matches a
request against the registered routes in declaration order; a path
parameter segment such as `{contact_id}` matches any non-empty path
segment, and the `int` annotation is only enforced afterwards, when the
matched route parses its parameters (failure yields 422).  A request
path is modelled as its list of segments after the leading slash, so
`/contacts/` is `["contacts", ""]` and `/` is `[""]`. -/

/-- HTTP methods used by the application. -/
inductive Method where
  | GET | POST | PUT | PATCH | DELETE
  deriving Repr, DecidableEq

/-- One segment of a route's path pattern: a literal, or a path
parameter (annotated `int` or not). -/
inductive Seg where
  | lit (s : String)
  | intParam (name : String)
  | strParam (name : String)
  deriving Repr, DecidableEq

/-- A registered route: method, path pattern, the name of the handler
function it dispatches to, whether the handler declares the
`Depends(get_current_user)` dependency, and the success status code. -/
structure Route where
  method : Method
  pattern : List Seg
  handler : String
  usesCurrentUser : Bool
  status_code : Nat
  deriving Repr, DecidableEq

/-- Does a pattern segment match a concrete path segment?  A path
parameter matches any non-empty segment (Starlette compiles `{x}` to
`[^/]+`). -/
def segMatches : Seg → String → Bool
  | .lit s, t => s = t
  | .intParam _, t => t ≠ ""
  | .strParam _, t => t ≠ ""

/-- Does a route match a request (method and full path)? -/
def routeMatches (r : Route) (m : Method) (path : List String) : Bool :=
  m = r.method && path.length = r.pattern.length &&
    (r.pattern.zip path).all fun sp => segMatches sp.1 sp.2

/-- The routes registered on `app`, in declaration order
(`main.py` lines 26, 30, 34, 47, 54, 74).  `update_contact`
(line 41) carries no decorator, and `app.include_router` is never
called, so neither `update_contact` nor the `router` routes appear. -/
def appRoutes : List Route :=
  [ { method := .GET, pattern := [.lit ""], handler := "read_root",
      usesCurrentUser := false, status_code := 200 },
    { method := .POST, pattern := [.lit "contacts", .lit ""],
      handler := "create_contact", usesCurrentUser := true, status_code := 201 },
    { method := .GET, pattern := [.lit "contacts", .intParam "contact_id"],
      handler := "read_contact", usesCurrentUser := true, status_code := 200 },
    { method := .DELETE, pattern := [.lit "contacts", .intParam "contact_id"],
      handler := "delete_contact", usesCurrentUser := false, status_code := 200 },
    { method := .GET, pattern := [.lit "contacts", .lit "search"],
      handler := "search_contacts", usesCurrentUser := false, status_code := 200 },
    { method := .GET, pattern := [.lit "contacts", .lit "upcoming-birthdays"],
      handler := "get_upcoming_birthdays", usesCurrentUser := false, status_code := 200 } ]

/-- The routes registered on the `APIRouter` object `router`
(`main.py` lines 106, 118, 133).  `main.py` never calls
`app.include_router(router)`, so these routes are not part of the
application. -/
def routerRoutes : List Route :=
  [ { method := .POST, pattern := [.lit "register"], handler := "register_user",
      usesCurrentUser := false, status_code := 201 },
    { method := .POST, pattern := [.lit "login"], handler := "login_user",
      usesCurrentUser := false, status_code := 200 },
    { method := .POST, pattern := [.lit "refresh"], handler := "refresh_access_token",
      usesCurrentUser := false, status_code := 200 } ]

/-- FastAPI dispatch: the first registered application route matching
the request, if any (404 otherwise). -/
def dispatch (m : Method) (path : List String) : Option Route :=
  appRoutes.find? fun r => routeMatches r m path

/-- The numeric value of a decimal digit character, `none` for any
other character. -/
def decimalValue? (c : Char) : Option Nat :=
  let n := c.toNat
  if 48 ≤ n ∧ n ≤ 57 then some (n - 48) else none

/-- Parsing of an `int`-annotated path parameter: the segment must be a
non-empty string of decimal digits. -/
def parseNatSeg (s : String) : Option Nat :=
  if s.data = [] then none
  else
    s.data.foldl
      (fun acc c =>
        match acc, decimalValue? c with
        | some a, some d => some (a * 10 + d)
        | _, _ => none)
      (some 0)

/-- After a route is matched, its `int`-annotated path parameters are
parsed; `false` means validation fails and the request is answered with
422 without invoking the handler. -/
def intParamsOk (pat : List Seg) (path : List String) : Bool :=
  (pat.zip path).all fun sp =>
    match sp.1 with
    | .intParam _ => (parseNatSeg sp.2).isSome
    | _ => true

/-! ## Passwords and tokens

The `auth` module and the passlib `CryptContext` are not among the
sources; they are modelled from the specification. -/

/-- Modelled from the spec: the passlib bcrypt context used by
`get_password_hash` (spec §4.2 "stores bcrypt-hashed password").
Modelled as an injective tagged encoding with a matching verifier. -/
def bcryptHash (password : String) : String :=
  "bcrypt$" ++ password

/-- `get_password_hash` (`main.py` line 100): `pwd_context.hash(password)`. -/
def get_password_hash (password : String) : String :=
  bcryptHash password

/-- `verify_password` (`main.py` line 103):
`pwd_context.verify(plain_password, hashed_password)`. -/
def verify_password (plain_password hashed_password : String) : Bool :=
  bcryptHash plain_password = hashed_password

/-- Modelled from the spec: a signed token issued by the missing `auth`
module (spec §6: "signed, expiring, carrying a subject claim").  `sub`
is the subject claim, `exp` the expiry instant (minutes since an
arbitrary origin), and `sigOk` records whether the signature verifies
(`false` models a tampered token). -/
structure Token where
  sub : String
  exp : Nat
  sigOk : Bool
  deriving Repr, DecidableEq

/-- Modelled from the spec: `auth.verify_token` (spec §4.2: "given a
signed token string, decode and verify signature and expiry; on any
failure, signal an authentication error; on success, return the
embedded subject identifier").  `now` is the current time;
the token is expired once `now` passes `exp`.  The caller's
`credentials_exception` is raised on failure, as in `main.py`. -/
def verify_token (token : Token) (now : Nat) (exc : HTTPException) :
    Except HTTPException String :=
  if token.sigOk && now ≤ token.exp then .ok token.sub else .error exc

/-- Modelled from the spec: `auth.create_access_token` (spec §4.2 /
§6: a signed token with the given subject, expiring `expiresDelta`
minutes from now). -/
def create_access_token (sub : String) (now expiresDelta : Nat) : Token :=
  { sub := sub, exp := now + expiresDelta, sigOk := true }

/-- Modelled from the spec: `auth.create_refresh_token` (spec §4.2:
"longer-lived, expiry policy external"); modelled with an unspecified
lifetime `refreshLifetime`. -/
def create_refresh_token (sub : String) (now refreshLifetime : Nat) : Token :=
  { sub := sub, exp := now + refreshLifetime, sigOk := true }

/-! ## The `crud` layer

The `crud` module is not among the sources; its operations are modelled
from the specification (§4.1). -/

/-- Modelled from the spec: `crud.get_contact` (spec §4.1: read by id,
`None` if absent) — the first stored contact with the requested id. -/
def get_contact (db : Db) (contact_id : Nat) : Option Contact :=
  db.contacts.find? fun c => c.id = contact_id

/-- Modelled from the spec: `crud.delete_contact` (spec §4.1: "deletes
by id; … ownership not checked") — remove the contact with the given id
if present, returning it, else `none` with the store unchanged. -/
def crud_delete_contact (db : Db) (contact_id : Nat) : Option Contact × Db :=
  match db.contacts.find? (fun c => c.id = contact_id) with
  | none => (none, db)
  | some c =>
    (some c, { db with contacts := db.contacts.filter fun c => ¬ c.id = contact_id })

/-- Modelled from the spec: the `schemas.ContactCreate` payload (spec
§3: contact fields without id and owner). -/
structure ContactCreate where
  first_name : String
  last_name : String
  email : String
  birthday : Nat
  deriving Repr, DecidableEq

/-- Modelled from the spec: `crud.update_contact` (spec §4.1: "updates
fields, 404 if missing or not owned") — update the contact with the
given id when it exists and is owned by `user_id`, else `none`. -/
def crud_update_contact (db : Db) (contact_id : Nat) (contact : ContactCreate)
    (user_id : Nat) : Option Contact × Db :=
  match db.contacts.find? (fun c => c.id = contact_id && c.user_id = user_id) with
  | none => (none, db)
  | some c =>
    let c2 : Contact :=
      { c with first_name := contact.first_name, last_name := contact.last_name,
               email := contact.email, birthday := contact.birthday }
    (some c2,
     { db with contacts := db.contacts.map fun d => if d.id = contact_id then c2 else d })

/-! ## Handlers -/

/-- The `credentials_exception` built in `get_current_user`
(`main.py` lines 89–93): 401 with a `WWW-Authenticate: Bearer` header. -/
def credentials_exception : HTTPException :=
  { status_code := 401, detail := "Could not validate credentials", bearerHeader := true }

/-- `get_current_user` (`main.py` lines 88–98): verify the bearer
token, then look the returned subject up **as a username**
(`db.query(User).filter(User.username == user_id).first()`); raise
`credentials_exception` if no such user. -/
def get_current_user (token : Token) (now : Nat) (db : Db) :
    Except HTTPException User :=
  match verify_token token now credentials_exception with
  | .error e => .error e
  | .ok user_id =>
    match db.users.find? (fun u => u.username = user_id) with
    | none => .error credentials_exception
    | some user => .ok user

/-- `read_contact` (`main.py` lines 34–39): 404 unless the contact
exists and belongs to the current user.  The handler only reads, so the
store is returned unchanged alongside the response. -/
def read_contact (contact_id : Nat) (db : Db) (current_user : User) :
    Except HTTPException Contact × Db :=
  match get_contact db contact_id with
  | none => (.error { status_code := 404, detail := "Contact not found", bearerHeader := false }, db)
  | some db_contact =>
    if db_contact.user_id ≠ current_user.id then
      (.error { status_code := 404, detail := "Contact not found", bearerHeader := false }, db)
    else
      (.ok db_contact, db)

/-- `delete_contact` (`main.py` lines 47–52): delete by id via
`crud.delete_contact`; 404 if nothing was deleted.  Note the handler
declares no `current_user` dependency. -/
def delete_contact (contact_id : Nat) (db : Db) :
    Except HTTPException Contact × Db :=
  match crud_delete_contact db contact_id with
  | (none, db2) => (.error { status_code := 404, detail := "Contact not found", bearerHeader := false }, db2)
  | (some c, db2) => (.ok c, db2)

/-- `update_contact` (`main.py` lines 41–45): defined in the source but
carrying no route decorator.  Delegates to `crud.update_contact` with
the current user's id; 404 if nothing was updated. -/
def update_contact (contact_id : Nat) (contact : ContactCreate) (db : Db)
    (current_user : User) : Except HTTPException Contact × Db :=
  match crud_update_contact db contact_id contact current_user.id with
  | (none, db2) =>
    (.error { status_code := 404, detail := "Contact not found or not authorized", bearerHeader := false }, db2)
  | (some c, db2) => (.ok c, db2)

/-- ASCII lowercasing of a character code. -/
def lowerCode (n : Nat) : Nat := if 65 ≤ n ∧ n ≤ 90 then n + 32 else n

/-- A string as its list of lowercased character codes. -/
def lowerCodes (s : String) : List Nat := s.data.map fun c => lowerCode c.toNat

/-- SQLAlchemy `ilike` with a percent wildcard on both sides:
case-insensitive substring test. -/
def ilikeContains (field pat : String) : Bool :=
  decide (lowerCodes pat <:+: lowerCodes field)

/-- One conditional `ilike` filter step of `search_contacts`: the
filter is applied only when the query parameter is provided and
non-empty (Python truthiness of `str` in `if name:`). -/
def applyIlikeFilter (param : Option String) (field : Contact → String)
    (l : List Contact) : List Contact :=
  match param with
  | none => l
  | some s => if s = "" then l else l.filter fun c => ilikeContains (field c) s

/-- `search_contacts` (`main.py` lines 54–72): AND of the provided
case-insensitive substring filters on first name, last name and email;
404 on an empty result list. -/
def search_contacts (name surname email : Option String) (db : Db) :
    Except HTTPException (List Contact) :=
  let results :=
    applyIlikeFilter email Contact.email
      (applyIlikeFilter surname Contact.last_name
        (applyIlikeFilter name Contact.first_name db.contacts))
  if results.isEmpty then
    .error { status_code := 404, detail := "Contacts not found", bearerHeader := false }
  else
    .ok results

/-- `get_upcoming_birthdays` (`main.py` lines 74–86):
`Contact.birthday.between(today, today + 7 days)` — an inclusive range —
then 404 on an empty result.  Dates are modelled at day granularity. -/
def get_upcoming_birthdays (today : Nat) (db : Db) :
    Except HTTPException (List Contact) :=
  let upcoming := today + 7
  let contacts := db.contacts.filter fun c => today ≤ c.birthday && c.birthday ≤ upcoming
  if contacts.isEmpty then
    .error { status_code := 404, detail := "No upcoming birthdays found", bearerHeader := false }
  else
    .ok contacts

/-- Modelled from the spec: the relational id assigned to a freshly
inserted user row (spec §3: "id (unique)") — one more than the largest
id in the table. -/
def nextUserId (db : Db) : Nat :=
  (db.users.map User.id).foldr max 0 + 1

/-- `register_user` (`main.py` lines 106–116): 409 if the username is
taken, else insert the user with the bcrypt-hashed password and return
the success message (the route's status code is 201). -/
def register_user (username password : String) (db : Db) :
    Except HTTPException String × Db :=
  match db.users.find? (fun u => u.username = username) with
  | some _ =>
    (.error { status_code := 409, detail := "User already exists", bearerHeader := false }, db)
  | none =>
    let new_user : User :=
      { id := nextUserId db, username := username,
        password := get_password_hash password }
    (.ok "User registered successfully", { db with users := db.users ++ [new_user] })

/-- The body of a successful `POST /login` response. -/
structure LoginResponse where
  access_token : Token
  refresh_token : Token
  token_type : String
  deriving Repr, DecidableEq

/-- `login_user` (`main.py` lines 118–131): look the user up by
username, verify the password hash, then issue an access token whose
subject is `str(user.id)` with a 30-minute expiry, and a refresh token
with the same subject. -/
def login_user (username password : String) (now refreshLifetime : Nat) (db : Db) :
    Except HTTPException LoginResponse :=
  match db.users.find? (fun u => u.username = username) with
  | none =>
    .error { status_code := 401, detail := "Invalid credentials", bearerHeader := false }
  | some user =>
    if ¬ verify_password password user.password then
      .error { status_code := 401, detail := "Invalid credentials", bearerHeader := false }
    else
      .ok { access_token := create_access_token (toString user.id) now 30,
            refresh_token := create_refresh_token (toString user.id) now refreshLifetime,
            token_type := "bearer" }

/-- `refresh_access_token` (`main.py` lines 133–144): verify the
refresh token and mint a new 30-minute access token for its subject. -/
def refresh_access_token (refresh_token : Token) (now : Nat) :
    Except HTTPException Token :=
  match verify_token refresh_token now
      { status_code := 401, detail := "Could not validate refresh token", bearerHeader := true } with
  | .error e => .error e
  | .ok user_id => .ok (create_access_token user_id now 30)

/-! ## Concrete demonstration data -/

/-- A store with the single user alice (id 1, username `alice`). -/
def aliceDb : Db :=
  { users := [{ id := 1, username := "alice", password := bcryptHash "pw" }], contacts := [] }

/-- A stored contact whose first name contains `li` case-insensitively. -/
def searchDemoContact : Contact :=
  { id := 1, first_name := "Alice", last_name := "Smith", email := "alice@example.com",
    birthday := 10, user_id := 1 }

/-- A contact whose birthday is exactly 7 days after day 100. -/
def birthday7Contact : Contact :=
  { id := 2, first_name := "Bea", last_name := "Ng", email := "bea@example.com",
    birthday := 107, user_id := 1 }

/-- The 8-days-out companion of `birthday7Contact`. -/
def birthday8Contact : Contact :=
  { id := 3, first_name := "Cy", last_name := "Ox", email := "cy@example.com",
    birthday := 108, user_id := 1 }

/-- The store after registering `bob` into an empty store. -/
def bobDb : Db := (register_user "bob" "pw" { users := [], contacts := [] }).2

/-! ## Theorems -/

/-- Claim C4: the update-contact handler exists in the source but is
not bound to any route: no application route answers a PUT or PATCH
request on any path, no registered route (on `app` or on `router`)
names the `update_contact` handler, while the handler itself is a
perfectly good function (here evaluated on an empty store). -/
theorem update_contact_not_routed (path : List String) :
    dispatch .PUT path = none ∧ dispatch .PATCH path = none ∧
    ((appRoutes ++ routerRoutes).all fun r => r.handler ≠ "update_contact") = true ∧
    (update_contact 1 { first_name := "a", last_name := "b", email := "c", birthday := 0 }
        { users := [], contacts := [] } { id := 1, username := "u", password := "p" }).1 =
      .error { status_code := 404, detail := "Contact not found or not authorized",
               bearerHeader := false } := by
  refine ⟨?_, ?_, by decide, rfl⟩ <;>
  · rw [dispatch, List.find?_eq_none]
    intro r hr
    fin_cases hr <;> simp [routeMatches]

/-- Claim C9: the register, login and refresh handlers live on the
`APIRouter` object that is never included in the application, so no
application route dispatches to them: `POST /register`, `POST /login`
and `POST /refresh` all fail to match, and no dispatchable route at all
names one of these three handlers. -/
theorem auth_router_not_included :
    dispatch .POST ["register"] = none ∧ dispatch .POST ["login"] = none ∧
    dispatch .POST ["refresh"] = none ∧
    routerRoutes.map Route.handler = ["register_user", "login_user", "refresh_access_token"] ∧
    ∀ (m : Method) (path : List String) (r : Route), dispatch m path = some r →
      r.handler ≠ "register_user" ∧ r.handler ≠ "login_user" ∧
        r.handler ≠ "refresh_access_token" := by
  refine ⟨by decide, by decide, by decide, by decide, ?_⟩
  intro m path r hr
  have hmem : r ∈ appRoutes := List.mem_of_find?_eq_some hr
  fin_cases hmem <;> exact ⟨by decide, by decide, by decide⟩

/-- Witness for claim C9's theorem at a concrete dispatch: the root
route resolves and is none of the authentication handlers. -/
theorem auth_router_not_included_witness :
    ({ method := .GET, pattern := [.lit ""], handler := "read_root",
       usesCurrentUser := false, status_code := 200 } : Route).handler ≠ "register_user" :=
  (auth_router_not_included.2.2.2.2 .GET [""]
    { method := .GET, pattern := [.lit ""], handler := "read_root",
      usesCurrentUser := false, status_code := 200 } (by decide)).1

/-- Claim C10: `GET /contacts/{contact_id}` is declared before the
literal `search` and `upcoming-birthdays` routes, so both literal paths
are captured by the `{contact_id}` route, whose `int` parameter then
fails to parse (422); the two later routes exist but are shadowed. -/
theorem contact_id_route_shadows_literal_paths :
    (dispatch .GET ["contacts", "search"]).map Route.handler = some "read_contact" ∧
    (dispatch .GET ["contacts", "search"]).map
      (fun r => intParamsOk r.pattern ["contacts", "search"]) = some false ∧
    (dispatch .GET ["contacts", "upcoming-birthdays"]).map Route.handler = some "read_contact" ∧
    (dispatch .GET ["contacts", "upcoming-birthdays"]).map
      (fun r => intParamsOk r.pattern ["contacts", "upcoming-birthdays"]) = some false ∧
    "search_contacts" ∈ appRoutes.map Route.handler ∧
    "get_upcoming_birthdays" ∈ appRoutes.map Route.handler := by
  decide

/-- Claim C1, evaluated at the input that refutes it: alice (id 1,
username `alice`) logs in successfully and receives an access token
whose subject is `"1"` (`str(user.id)`), but presenting that very token
to `get_current_user` raises the 401 `credentials_exception`, because
the lookup matches the subject against `User.username` and no user is
named `"1"` — the token of a valid login does not resolve to the user
who logged in. -/
theorem login_token_subject_does_not_resolve :
    login_user "alice" "pw" 0 100 aliceDb =
      .ok { access_token := { sub := "1", exp := 30, sigOk := true },
            refresh_token := { sub := "1", exp := 100, sigOk := true },
            token_type := "bearer" } ∧
    get_current_user { sub := "1", exp := 30, sigOk := true } 0 aliceDb =
      .error credentials_exception :=
  ⟨rfl, rfl⟩

/-- Claim C5, evaluated at the input that refutes it at the HTTP level:
a `GET /contacts/search` request is captured by the earlier
`/contacts/{contact_id}` route and fails its integer path-parameter
validation (422), so the search handler is never invoked — even though
the handler itself, applied to the same store, would return the
matching contact for `name=li` and a 404 for a non-matching filter. -/
theorem search_endpoint_unreachable :
    (dispatch .GET ["contacts", "search"]).map Route.handler = some "read_contact" ∧
    (dispatch .GET ["contacts", "search"]).map
      (fun r => intParamsOk r.pattern ["contacts", "search"]) = some false ∧
    search_contacts (some "li") none none { users := [], contacts := [searchDemoContact] } =
      .ok [searchDemoContact] ∧
    search_contacts (some "zzz") none none { users := [], contacts := [searchDemoContact] } =
      .error { status_code := 404, detail := "Contacts not found", bearerHeader := false } := by
  exact ⟨by decide, by decide, rfl, rfl⟩

/-- Claim C6, evaluated at the input that refutes it at the HTTP level:
a `GET /contacts/upcoming-birthdays` request is captured by the earlier
`/contacts/{contact_id}` route and fails its integer path-parameter
validation (422), so the handler is never invoked — even though the
handler itself, on day 100, would include the birthday 7 days out,
exclude the one 8 days out, and 404 when nothing qualifies. -/
theorem upcoming_birthdays_endpoint_unreachable :
    (dispatch .GET ["contacts", "upcoming-birthdays"]).map Route.handler =
      some "read_contact" ∧
    (dispatch .GET ["contacts", "upcoming-birthdays"]).map
      (fun r => intParamsOk r.pattern ["contacts", "upcoming-birthdays"]) = some false ∧
    get_upcoming_birthdays 100
        { users := [], contacts := [birthday7Contact, birthday8Contact] } =
      .ok [birthday7Contact] ∧
    get_upcoming_birthdays 100 { users := [], contacts := [birthday8Contact] } =
      .error { status_code := 404, detail := "No upcoming birthdays found",
               bearerHeader := false } := by
  exact ⟨by decide, by decide, rfl, rfl⟩

/-- Claim C8, evaluated at the input that refutes it at the HTTP level:
the application has no `POST /register` route at all (the handler sits
on the never-included `APIRouter`), so no request can reach
`register_user` — even though the handler itself stores `bob` with the
bcrypt-hashed password on the first call and answers the second call
with 409, leaving the store unchanged. -/
theorem register_endpoint_missing :
    dispatch .POST ["register"] = none ∧
    "register_user" ∈ routerRoutes.map Route.handler ∧
    (register_user "bob" "pw" { users := [], contacts := [] }).1 =
      .ok "User registered successfully" ∧
    bobDb.users = [{ id := 1, username := "bob", password := bcryptHash "pw" }] ∧
    (register_user "bob" "pw" bobDb).1 =
      .error { status_code := 409, detail := "User already exists", bearerHeader := false } ∧
    (register_user "bob" "pw" bobDb).2 = bobDb := by
  exact ⟨by decide, by decide, rfl, rfl, rfl, rfl⟩

/-- Claim C2: under the data-model invariant that stored contact ids
are unique, `GET /contacts/{id}` leaves the store untouched, returns a
contact exactly when it is stored under the requested id and owned by
the current user, and answers any other case with the 404 exception. -/
theorem read_contact_spec (contact_id : Nat) (db : Db) (current_user : User)
    (hids : (db.contacts.map Contact.id).Nodup) :
    (read_contact contact_id db current_user).2 = db ∧
    (∀ c : Contact, (read_contact contact_id db current_user).1 = .ok c ↔
        c ∈ db.contacts ∧ c.id = contact_id ∧ c.user_id = current_user.id) ∧
    ((¬ ∃ c ∈ db.contacts, c.id = contact_id ∧ c.user_id = current_user.id) →
        (read_contact contact_id db current_user).1 =
          .error { status_code := 404, detail := "Contact not found", bearerHeader := false }) := by
  have hinj := List.inj_on_of_nodup_map hids
  rcases hfind : get_contact db contact_id with _ | d
  · have hnone : ∀ c ∈ db.contacts, ¬ c.id = contact_id := by
      have hfind' : db.contacts.find? (fun c => c.id = contact_id) = none := hfind
      rw [List.find?_eq_none] at hfind'
      intro c hc
      simpa using hfind' c hc
    refine ⟨?_, ?_, ?_⟩
    · simp [read_contact, hfind]
    · intro c
      refine iff_of_false ?_ ?_
      · simp [read_contact, hfind]
      · rintro ⟨hc, hcid, _⟩
        exact hnone c hc hcid
    · intro _
      simp [read_contact, hfind]
  · have hfind' : db.contacts.find? (fun c => c.id = contact_id) = some d := hfind
    have hd : d ∈ db.contacts := List.mem_of_find?_eq_some hfind'
    have hdid : d.id = contact_id := by simpa using List.find?_some hfind'
    by_cases hown : d.user_id = current_user.id
    · refine ⟨?_, ?_, ?_⟩
      · simp [read_contact, hfind, hown]
      · intro c
        constructor
        · intro h
          simp [read_contact, hfind, hown] at h
          exact h ▸ ⟨hd, hdid, hown⟩
        · rintro ⟨hc, hcid, _⟩
          have hcd : c = d := hinj hc hd (hcid.trans hdid.symm)
          subst hcd
          simp [read_contact, hfind, hown]
      · intro hno
        exact absurd ⟨d, hd, hdid, hown⟩ hno
    · refine ⟨?_, ?_, ?_⟩
      · simp [read_contact, hfind, hown]
      · intro c
        refine iff_of_false ?_ ?_
        · simp [read_contact, hfind, hown]
        · rintro ⟨hc, hcid, hcu⟩
          have hcd : c = d := hinj hc hd (hcid.trans hdid.symm)
          subst hcd
          exact hown hcu
      · intro _
        simp [read_contact, hfind, hown]

/-- Witness for claim C2's theorem at a concrete store: the owner
fetches their stored contact back. -/
theorem read_contact_spec_witness :
    (read_contact 5
        { users := [],
          contacts := [{ id := 5, first_name := "D", last_name := "E", email := "d",
                         birthday := 1, user_id := 9 }] }
        { id := 9, username := "o", password := "h" }).1 =
      .ok { id := 5, first_name := "D", last_name := "E", email := "d",
            birthday := 1, user_id := 9 } := by
  exact ((read_contact_spec 5
      { users := [],
        contacts := [{ id := 5, first_name := "D", last_name := "E", email := "d",
                       birthday := 1, user_id := 9 }] }
      { id := 9, username := "o", password := "h" } (by decide)).2.1 _).mpr (by decide)

/-- Claim C3: under the unique-ids invariant, `DELETE /contacts/{id}`
is routed without any current-user dependency, returns (and removes)
the stored contact with the requested id no matter which user owns it,
keeps every other contact and the whole user table, and answers with
the 404 exception — store unchanged — when no contact has that id. -/
theorem delete_contact_spec (contact_id : Nat) (db : Db)
    (hids : (db.contacts.map Contact.id).Nodup) :
    (∃ r ∈ appRoutes, r.handler = "delete_contact" ∧ r.method = .DELETE ∧
        r.usesCurrentUser = false) ∧
    (∀ c : Contact, (delete_contact contact_id db).1 = .ok c ↔
        c ∈ db.contacts ∧ c.id = contact_id) ∧
    (∀ c : Contact, (delete_contact contact_id db).1 = .ok c →
        (delete_contact contact_id db).2.users = db.users ∧
        c ∉ (delete_contact contact_id db).2.contacts ∧
        ∀ d ∈ db.contacts, d ≠ c → d ∈ (delete_contact contact_id db).2.contacts) ∧
    ((∀ c ∈ db.contacts, c.id ≠ contact_id) →
        (delete_contact contact_id db).1 =
          .error { status_code := 404, detail := "Contact not found", bearerHeader := false } ∧
        (delete_contact contact_id db).2 = db) := by
  have hinj := List.inj_on_of_nodup_map hids
  refine ⟨by decide, ?_, ?_, ?_⟩
  · intro c
    constructor
    · intro h
      simp only [delete_contact, crud_delete_contact] at h
      rcases hfind : db.contacts.find? (fun x => x.id = contact_id) with _ | d
      · rw [hfind] at h
        simp at h
      · rw [hfind] at h
        simp at h
        subst h
        exact ⟨List.mem_of_find?_eq_some hfind, by simpa using List.find?_some hfind⟩
    · rintro ⟨hc, hcid⟩
      rcases hfind : db.contacts.find? (fun x => x.id = contact_id) with _ | d
      · exfalso
        rw [List.find?_eq_none] at hfind
        exact absurd hcid (by simpa using hfind c hc)
      · have hd : d ∈ db.contacts := List.mem_of_find?_eq_some hfind
        have hdid : d.id = contact_id := by simpa using List.find?_some hfind
        have hcd : c = d := hinj hc hd (hcid.trans hdid.symm)
        subst hcd
        simp only [delete_contact, crud_delete_contact]
        rw [hfind]
  · intro c h
    simp only [delete_contact, crud_delete_contact] at h
    rcases hfind : db.contacts.find? (fun x => x.id = contact_id) with _ | d
    · rw [hfind] at h
      simp at h
    · rw [hfind] at h
      simp at h
      subst h
      have hc : d ∈ db.contacts := List.mem_of_find?_eq_some hfind
      have hcid : d.id = contact_id := by simpa using List.find?_some hfind
      simp only [delete_contact, crud_delete_contact]
      rw [hfind]
      refine ⟨rfl, ?_, ?_⟩
      · intro hmem
        rw [List.mem_filter] at hmem
        exact absurd hcid (by simpa using hmem.2)
      · intro e he hne
        rw [List.mem_filter]
        refine ⟨he, ?_⟩
        have : ¬ e.id = contact_id := fun heid => hne (hinj he hc (heid.trans hcid.symm))
        simpa using this
  · intro hnone
    have hfind : db.contacts.find? (fun x => x.id = contact_id) = none := by
      rw [List.find?_eq_none]
      intro x hx
      simpa using hnone x hx
    constructor
    · simp only [delete_contact, crud_delete_contact]
      rw [hfind]
    · simp only [delete_contact, crud_delete_contact]
      rw [hfind]

/-- Witness for claim C3's theorem at a concrete store: deleting a
stored contact succeeds (with no current user anywhere in sight), and
deleting from an empty store gives the 404 exception. -/
theorem delete_contact_spec_witness :
    (delete_contact 5
        { users := [],
          contacts := [{ id := 5, first_name := "D", last_name := "E", email := "d",
                         birthday := 1, user_id := 9 }] }).1 =
      .ok { id := 5, first_name := "D", last_name := "E", email := "d",
            birthday := 1, user_id := 9 } ∧
    (delete_contact 6 { users := [], contacts := [] }).1 =
      .error { status_code := 404, detail := "Contact not found", bearerHeader := false } := by
  constructor
  · exact ((delete_contact_spec 5
      { users := [],
        contacts := [{ id := 5, first_name := "D", last_name := "E", email := "d",
                       birthday := 1, user_id := 9 }] } (by decide)).2.1 _).mpr (by decide)
  · exact ((delete_contact_spec 6 { users := [], contacts := [] } (by decide)).2.2.2
      (by decide)).1

/-- Claim C7: current-user resolution raises the 401
`WWW-Authenticate: Bearer` exception exactly when the token's signature
is bad, the token is expired, or no stored user carries the subject as
username; every failure is that very exception, and a token that is
tampered with or expired never resolves to a user. -/
theorem get_current_user_spec (token : Token) (now : Nat) (db : Db) :
    (get_current_user token now db = .error credentials_exception ↔
      token.sigOk = false ∨ token.exp < now ∨ ∀ u ∈ db.users, u.username ≠ token.sub) ∧
    (∀ u : User, get_current_user token now db = .ok u →
      token.sigOk = true ∧ now ≤ token.exp ∧ u ∈ db.users ∧ u.username = token.sub) ∧
    (∀ e : HTTPException, get_current_user token now db = .error e →
      e = credentials_exception) ∧
    credentials_exception.status_code = 401 ∧ credentials_exception.bearerHeader = true := by
  rcases hsig : token.sigOk with _ | _
  · refine ⟨?_, ?_, ?_, rfl, rfl⟩
    · simp [get_current_user, verify_token, hsig]
    · intro u h
      simp [get_current_user, verify_token, hsig] at h
    · intro e h
      simp [get_current_user, verify_token, hsig] at h
      exact h.symm
  · by_cases hexp : now ≤ token.exp
    · rcases hfindu : db.users.find? (fun u => u.username = token.sub) with _ | u
      · have hnone : ∀ u ∈ db.users, u.username ≠ token.sub := by
          rw [List.find?_eq_none] at hfindu
          intro u hu
          simpa using hfindu u hu
        refine ⟨?_, ?_, ?_, rfl, rfl⟩
        · refine iff_of_true ?_ (.inr (.inr hnone))
          simp [get_current_user, verify_token, hsig, hexp, hfindu]
        · intro u h
          simp [get_current_user, verify_token, hsig, hexp, hfindu] at h
        · intro e h
          simp [get_current_user, verify_token, hsig, hexp, hfindu] at h
          exact h.symm
      · have hu : u ∈ db.users := List.mem_of_find?_eq_some hfindu
        have husub : u.username = token.sub := by simpa using List.find?_some hfindu
        refine ⟨?_, ?_, ?_, rfl, rfl⟩
        · refine iff_of_false ?_ ?_
          · simp [get_current_user, verify_token, hsig, hexp, hfindu]
          · rintro (h | h | h)
            · simp at h
            · exact absurd hexp (Nat.not_le.mpr h)
            · exact h u hu husub
        · intro u' h
          simp [get_current_user, verify_token, hsig, hexp, hfindu] at h
          subst h
          exact ⟨rfl, hexp, hu, husub⟩
        · intro e h
          simp [get_current_user, verify_token, hsig, hexp, hfindu] at h
    · have hlt : token.exp < now := Nat.lt_of_not_le hexp
      refine ⟨?_, ?_, ?_, rfl, rfl⟩
      · refine iff_of_true ?_ (.inr (.inl hlt))
        simp [get_current_user, verify_token, hsig, hexp]
      · intro u h
        simp [get_current_user, verify_token, hsig, hexp] at h
      · intro e h
        simp [get_current_user, verify_token, hsig, hexp] at h
        exact h.symm

/-- Witness for claim C7's theorem: a syntactically valid, unexpired
token whose subject matches no stored user falls into the
user-not-found disjunct. -/
theorem get_current_user_spec_witness :
    ({ sub := "x", exp := 10, sigOk := true } : Token).sigOk = false ∨
    ({ sub := "x", exp := 10, sigOk := true } : Token).exp < 5 ∨
    ∀ u ∈ ({ users := [], contacts := [] } : Db).users,
      u.username ≠ ({ sub := "x", exp := 10, sigOk := true } : Token).sub :=
  (get_current_user_spec { sub := "x", exp := 10, sigOk := true } 5
    { users := [], contacts := [] }).1.mp rfl

end ContactsApi
